import Mathlib

/-!
# s3-tester: a verification development of `main.go`

Shallow embedding of the command-line tool `s3-tester` (one Go source file)
and theorems about its size formatter, its logger set-up, its S3 client
factory and its two actions `upload` and `remove`.

## Conventions of the embedding

* `int64` values are `Int`; theorems that depend on the machine range carry
  the bound `n < 2 ^ 63`.
* `float64(size)` for a positive `int64` is the integer obtained by rounding
  `size` to 53 significant bits, ties to even (`float64`). The divisors
  `1024`, `1024*1024`, ... are powers of two, so the division is exact and the
  quotient is kept as the pair numerator / denominator.
* `fmt.Sprintf("%.2f", x)` prints the exact binary value of `x` rounded to two
  decimals, ties to even (`sprintfF2`).
* The process is a state-passing computation `Proc` over a `World` (global log
  level, log sink, steps taken so far) that returns, exits with a code or
  panics. The file system, the UUID generator, the clock and the `minio`
  client are parameters gathered in `Env`.
-/

namespace S3Tester

/-! ## Size formatter -/

/-- Nearest integer to `a / b`, an exact tie going to the even neighbour. -/
def roundHalfEven (a b : Nat) : Nat :=
  let q := a / b
  let r := a % b
  if 2 * r < b then q
  else if b < 2 * r then q + 1
  else if q % 2 = 0 then q else q + 1

/-- Number of low bits that do not fit a 53-bit significand. -/
def excessBits : Nat → Nat → Nat
  | 0, _ => 0
  | fuel + 1, n => if n < 2 ^ 53 then 0 else excessBits fuel (n / 2) + 1

/-- The value of `float64(n)` for a non-negative integer `n` below `2 ^ 64`:
`n` rounded to 53 significant bits, ties to even. -/
def float64 (n : Nat) : Nat :=
  let e := excessBits 11 n
  roundHalfEven n (2 ^ e) * 2 ^ e

/-- The two-digit rendering of a number below one hundred. -/
def twoDigits (k : Nat) : String :=
  String.mk [Nat.digitChar (k / 10), Nat.digitChar (k % 10)]

/-- Rendering of the hundredths count `h` as a decimal with two fractional
digits. -/
def fixed2 (h : Nat) : String :=
  toString (h / 100) ++ "." ++ twoDigits (h % 100)

/-- `fmt.Sprintf("%.2f", x)` for the non-negative value `x = num / den`. -/
def sprintfF2 (num den : Nat) : String :=
  fixed2 (roundHalfEven (100 * num) den)

/-- `fmt.Sprintf("%d", n)`. -/
def sprintfD (n : Int) : String :=
  toString n

/-- The function `getHumanReadableSize` of `main.go`. -/
def getHumanReadableSize (size : Int) : String :=
  if size < 1024 then
    sprintfD size ++ " B"
  else if size < 1024 * 1024 then
    sprintfF2 (float64 size.toNat) 1024 ++ " KiB"
  else if size < 1024 * 1024 * 1024 then
    sprintfF2 (float64 size.toNat) (1024 * 1024) ++ " MiB"
  else if size < 1024 * 1024 * 1024 * 1024 then
    sprintfF2 (float64 size.toNat) (1024 * 1024 * 1024) ++ " GiB"
  else
    sprintfF2 (float64 size.toNat) (1024 * 1024 * 1024 * 1024) ++ " TiB"

/-! ## Reading a formatted size back -/

/-- Value of a string of decimal digits. -/
def decimalValue (cs : List Char) : Nat :=
  cs.foldl (fun a c => 10 * a + (c.toNat - 48)) 0

/-- Size in bytes of a printed unit suffix. -/
def unitBytes : List Char → Option Nat
  | ['B'] => some 1
  | ['K', 'i', 'B'] => some 1024
  | ['M', 'i', 'B'] => some (1024 * 1024)
  | ['G', 'i', 'B'] => some (1024 * 1024 * 1024)
  | ['T', 'i', 'B'] => some (1024 * 1024 * 1024 * 1024)
  | _ => none

/-- Reads `<digits> <unit>` or `<digits>.<digits> <unit>` back as the printed
magnitude times the size of the printed unit in bytes. -/
def readBack (s : String) : Option ℚ :=
  match s.data.span Char.isDigit with
  | (ip, ' ' :: u) => (unitBytes u).map fun (k : Nat) => (decimalValue ip : ℚ) * (k : ℚ)
  | (ip, '.' :: rest) =>
    match rest.span Char.isDigit with
    | (fp, ' ' :: u) =>
      (unitBytes u).map fun (k : Nat) =>
        ((decimalValue ip : ℚ) + (decimalValue fp : ℚ) / 10 ^ fp.length) * (k : ℚ)
    | _ => none
  | _ => none

/-! ## The process: log records, collaborators and termination

`zerolog` keeps a global level; a record is written when its level is at
least the global level. `log.Fatal()` starts an event whose `Msg`/`Msgf`
writes the record and then calls `os.Exit(1)`; an event on which no `Msg`,
`Msgf` or `Send` is called writes nothing and runs no exit hook. -/

/-- The `zerolog` levels this program can use or set. -/
inductive Level
  | trace
  | debug
  | info
  | warn
  | error
  | fatal
  deriving DecidableEq, Repr

/-- Numeric value of a level (`zerolog.TraceLevel = -1`, `DebugLevel = 0`, ...). -/
def Level.toInt : Level → Int
  | .trace => -1
  | .debug => 0
  | .info => 1
  | .warn => 2
  | .error => 3
  | .fatal => 4

/-- The method `Level.String()` of `zerolog`. -/
def Level.String : Level → String
  | .trace => "trace"
  | .debug => "debug"
  | .info => "info"
  | .warn => "warn"
  | .error => "error"
  | .fatal => "fatal"

/-- A written log record: level, message and the optional `error` field. -/
structure Record where
  level : Level
  msg : String
  err : Option String
  deriving DecidableEq, Repr

/-- A handle on a constructed `*minio.Client`. -/
structure Client where
  handle : Nat
  deriving DecidableEq, Repr

/-- The observable steps of a run, in order. -/
inductive Effect
  | log (r : Record)
  | stat (path : String)
  | openFile (path : String)
  | newClient (endpoint accessKey secretKey : String) (secure : Bool)
  | progressStart (total : Int)
  | putObject (client : Option Client) (bucket key : String) (size : Int)
  | removeObject (client : Option Client) (bucket key : String)
  deriving DecidableEq, Repr

/-- The steps that construct an S3 client or issue a network request. -/
def Effect.isS3 : Effect → Bool
  | .newClient _ _ _ _ => true
  | .putObject _ _ _ _ => true
  | .removeObject _ _ _ => true
  | _ => false

/-- Process state: the global log level, whether the logger writes to the
console on standard output, and the steps taken so far. -/
structure World where
  globalLevel : Level
  consoleOutput : Bool
  steps : List Effect
  deriving DecidableEq, Repr

/-- State of the process when `main` starts: the package initialisation of
`zerolog` has stored `TraceLevel` as the global level, and nothing has
happened yet. -/
def World.initial : World :=
  ⟨.trace, false, []⟩

/-- The world after the further steps `es`. -/
def World.after (w : World) (es : List Effect) : World :=
  { w with steps := w.steps ++ es }

/-- How a computation ends: it returns, the process exits with a code, or a
Go panic unwinds the process. -/
inductive Outcome (α : Type)
  | returned (a : α) (w : World)
  | exited (code : Nat) (w : World)
  | panicked (w : World)
  deriving DecidableEq, Repr

/-- A computation of the process. -/
def Proc (α : Type) : Type :=
  World → Outcome α

/-- Sequencing: an exit or a panic ends the run. -/
def Proc.bind {α β : Type} (m : Proc α) (f : α → Proc β) : Proc β := fun w =>
  match m w with
  | .returned a w1 => f a w1
  | .exited code w1 => .exited code w1
  | .panicked w1 => .panicked w1

instance : Monad Proc where
  pure a := fun w => .returned a w
  bind := Proc.bind

/-- Records one step. -/
def step (e : Effect) : Proc Unit := fun w =>
  .returned () { w with steps := w.steps ++ [e] }

/-- Result of a call into a collaborator: it returns `nil`, returns an error,
or panics. -/
inductive CallResult
  | ok
  | error (e : String)
  | panic
  deriving DecidableEq, Repr

/-- The resolved command line `c *cli.Context`: positional arguments and the
value of every flag. -/
structure Context where
  args : List String
  verbose : Bool
  veryVerbose : Bool
  endpoint : String
  port : Int
  accessKey : String
  secretKey : String
  bucket : String
  insecure : Bool

/-- The collaborators of the program: the UUID generator, the file system,
the `minio` client constructor and client calls, and the clock. `minioNew`
returns the pair `(client, err)` of `minio.New`; `uploadSpeed size elapsed`
stands for `int64(float64(size) / elapsed.Seconds())`. -/
structure Env where
  uuid : String
  stat : String → Except String Int
  openFile : String → Option String
  minioNew : String → String → String → Bool → Option Client × Option String
  putObject : Option Client → String → String → Int → CallResult
  removeObject : Option Client → String → String → CallResult
  elapsed : Int
  durationString : Int → String
  uploadSpeed : Int → Int → Int

/-- The method `First` of `cli.Args`: the first positional argument, or the
empty string when there is none. -/
def First (args : List String) : String :=
  args.headD ""

/-- A log event under construction. -/
structure Event where
  level : Level
  err : Option String

/-- The call `log.Fatal()`. -/
def log.Fatal : Event :=
  ⟨.fatal, none⟩

/-- The call `log.Info()`. -/
def log.Info : Event :=
  ⟨.info, none⟩

/-- The call `log.Err(err)` for a non-nil error. -/
def log.Err (err : String) : Event :=
  ⟨.error, some err⟩

/-- The method `Err(err)` of an event: adds the error field. -/
def Event.Err (e : Event) (err : String) : Event :=
  { e with err := some err }

/-- The methods `Msg` and `Msgf` of an event: write the record when its level
is enabled, then exit with code 1 when the event is a fatal one. -/
def Event.Msg (e : Event) (msg : String) : Proc Unit := fun w =>
  let w1 : World :=
    if w.globalLevel.toInt ≤ e.level.toInt then
      { w with steps := w.steps ++ [Effect.log ⟨e.level, msg, e.err⟩] }
    else w
  if e.level = Level.fatal then .exited 1 w1 else .returned () w1

/-- An event that is built and dropped, with no `Msg`, `Msgf` or `Send`:
nothing is written and the exit hook of a fatal event does not run. -/
def Event.dropped (_e : Event) : Proc Unit :=
  pure ()

/-- The call `zerolog.SetGlobalLevel`. -/
def SetGlobalLevel (l : Level) : Proc Unit := fun w =>
  .returned () { w with globalLevel := l }

/-- The call `zerolog.GlobalLevel()`. -/
def GlobalLevel : Proc Level := fun w =>
  .returned w.globalLevel w

/-! ## The functions of `main.go` -/

/-- The function `setLogOutput`: console writer on standard output. -/
def setLogOutput : Proc Unit := fun w =>
  .returned () { w with consoleOutput := true }

/-- The function `applyLogLevel`. -/
def applyLogLevel (logLevel : String) : Proc Unit :=
  match logLevel with
  | "trace" => SetGlobalLevel .trace
  | "debug" => SetGlobalLevel .debug
  | "info" => SetGlobalLevel .info
  | "warn" => SetGlobalLevel .warn
  | "warning" => SetGlobalLevel .warn
  | "err" => SetGlobalLevel .error
  | "error" => SetGlobalLevel .error
  | _ => SetGlobalLevel .info

/-- The function `initLogger`. -/
def initLogger (c : Context) : Proc Unit := do
  setLogOutput
  if c.veryVerbose then
    applyLogLevel "trace"
  else if c.verbose then
    applyLogLevel "debug"
  let level ← GlobalLevel
  log.Info.Msg ("Logger initialized on level '" ++ level.String ++ "'")

/-- The function `getS3Client`. -/
def getS3Client (env : Env) (c : Context) : Proc (Option Client) := do
  let S3_ENDPOINT := c.endpoint
  let S3_PORT := c.port
  let S3_SSL := !c.insecure
  let S3_ACCESS_KEY := c.accessKey
  let S3_SECRET_KEY := c.secretKey
  if S3_ENDPOINT = "" then
    log.Fatal.Msg "Please specify an S3 endpoint"
  if S3_PORT = 0 then
    log.Fatal.Msg "Please specify an S3 port"
  if S3_ACCESS_KEY = "" then
    log.Fatal.Msg "Please specify an S3 access key"
  if S3_SECRET_KEY = "" then
    log.Fatal.Msg "Please specify an S3 secret key"
  log.Info.Msg ("Connecting to S3 host '" ++ S3_ENDPOINT ++ "' on port '" ++
    sprintfD S3_PORT ++ "'")
  let endpoint := S3_ENDPOINT ++ ":" ++ sprintfD S3_PORT
  step (.newClient endpoint S3_ACCESS_KEY S3_SECRET_KEY S3_SSL)
  let result := env.minioNew endpoint S3_ACCESS_KEY S3_SECRET_KEY S3_SSL
  let client := result.1
  let err := result.2
  match err with
  | some e => (log.Fatal.Err e).dropped
  | none => pure ()
  return client

/-- A call into the S3 client: records the request, then returns the error
of the call (`none` for `nil`) or panics. -/
def call (e : Effect) (r : CallResult) : Proc (Option String) := fun w =>
  let w1 : World := { w with steps := w.steps ++ [e] }
  match r with
  | .ok => .returned none w1
  | .error msg => .returned (some msg) w1
  | .panic => .panicked w1

/-- The function `upload`. -/
def upload (env : Env) (c : Context) : Proc Unit := do
  if c.args.length ≠ 1 then
    log.Fatal.Msg "Please specify a file to upload"
  let filePath := First c.args
  let id := env.uuid
  step (.stat filePath)
  let fileSize ←
    match env.stat filePath with
    | .error e => do
      (log.Fatal.Err e).Msg ("File '" ++ filePath ++ "' does not exist")
      pure 0 -- not reached: the fatal record has ended the process
    | .ok size => pure size
  log.Info.Msg ("File '" ++ filePath ++ "' exists with size '" ++
    getHumanReadableSize fileSize ++ "'")
  step (.openFile filePath)
  match env.openFile filePath with
  | some e => (log.Fatal.Err e).Msg ("Failed to open file '" ++ filePath ++ "'")
  | none => pure ()
  let client ← getS3Client env c
  log.Info.Msg ("Uploading file '" ++ filePath ++ "' as ID '" ++ id ++ "'")
  let S3_BUCKET := c.bucket
  step (.progressStart fileSize)
  let err ← call (.putObject client S3_BUCKET id fileSize)
    (env.putObject client S3_BUCKET id fileSize)
  let elapsedTime := env.elapsed
  match err with
  | some e => (log.Err e).Msg "Failed to upload"
  | none => pure ()
  log.Info.Msg ("Uploaded file with '" ++ getHumanReadableSize fileSize ++ "' in " ++
    env.durationString elapsedTime)
  let uploadSpeed := env.uploadSpeed fileSize elapsedTime
  log.Info.Msg ("Average upload speed: " ++ getHumanReadableSize uploadSpeed ++ "/s")
  return ()

/-- The function `remove`. -/
def remove (env : Env) (c : Context) : Proc Unit := do
  if c.args.length ≠ 1 then
    log.Fatal.Msg "Please specify an object to remove"
  let id := First c.args
  let client ← getS3Client env c
  let S3_BUCKET := c.bucket
  let err ← call (.removeObject client S3_BUCKET id) (env.removeObject client S3_BUCKET id)
  match err with
  | some e => (log.Fatal.Err e).Msg ("Failed to remove object '" ++ id ++ "'")
  | none => pure ()
  log.Info.Msg ("Removed object '" ++ id ++ "'")
  return ()

/-- The action of the `upload` command in `main`. -/
def uploadAction (env : Env) (c : Context) : Proc Unit := do
  initLogger c
  upload env c

/-- The action of the `remove` command in `main`. -/
def removeAction (env : Env) (c : Context) : Proc Unit := do
  initLogger c
  remove env c

/-- The endpoint string `fmt.Sprintf("%s:%d", host, port)` composed by
`getS3Client`. -/
def composedEndpoint (c : Context) : String :=
  c.endpoint ++ ":" ++ sprintfD c.port

/-- The first component of what `minio.New` returns for the configuration
`c`: the client handed on by `getS3Client`. -/
def constructedClient (env : Env) (c : Context) : Option Client :=
  (env.minioNew (composedEndpoint c) c.accessKey c.secretKey (!c.insecure)).1

/-- The two steps of `getS3Client` on a configuration that passes its four
checks: the info record and the call of the client constructor. -/
def connectSteps (c : Context) : List Effect :=
  [Effect.log ⟨Level.info, "Connecting to S3 host '" ++ c.endpoint ++ "' on port '" ++
      sprintfD c.port ++ "'", none⟩,
    Effect.newClient (composedEndpoint c) c.accessKey c.secretKey (!c.insecure)]

/-- The steps of `upload` up to and including the PUT request, for the file
`path` of `size` bytes. -/
def uploadSteps (env : Env) (c : Context) (path : String) (size : Int) : List Effect :=
  [Effect.stat path,
    Effect.log ⟨Level.info, "File '" ++ path ++ "' exists with size '" ++
      getHumanReadableSize size ++ "'", none⟩,
    Effect.openFile path] ++ connectSteps c ++
  [Effect.log ⟨Level.info, "Uploading file '" ++ path ++ "' as ID '" ++ env.uuid ++ "'", none⟩,
    Effect.progressStart size,
    Effect.putObject (constructedClient env c) c.bucket env.uuid size]

/-- The two statistics records of `upload`. -/
def statsRecords (env : Env) (size : Int) : List Effect :=
  [Effect.log ⟨Level.info, "Uploaded file with '" ++ getHumanReadableSize size ++ "' in " ++
      env.durationString env.elapsed, none⟩,
    Effect.log ⟨Level.info, "Average upload speed: " ++
      getHumanReadableSize (env.uploadSpeed size env.elapsed) ++ "/s", none⟩]

/-! ## Sample inputs -/

/-- A collaborator set in which every call succeeds. -/
def sampleEnv : Env where
  uuid := "123e4567-e89b-42d3-a456-426614174000"
  stat := fun _ => Except.ok 5242880
  openFile := fun _ => none
  minioNew := fun _ _ _ _ => (some ⟨1⟩, none)
  putObject := fun _ _ _ _ => CallResult.ok
  removeObject := fun _ _ _ => CallResult.ok
  elapsed := 1000000000
  durationString := fun _ => "1s"
  uploadSpeed := fun size _ => size

/-- A collaborator set in which the PUT and the delete return an error. -/
def refusingEnv : Env :=
  { sampleEnv with
    putObject := fun _ _ _ _ => CallResult.error "Access Denied."
    removeObject := fun _ _ _ => CallResult.error "Access Denied." }

/-- A collaborator set in which `minio.New` returns `(nil, err)`, as it does
for an endpoint that carries a scheme, and a call on the nil client panics. -/
def failingEnv : Env :=
  { sampleEnv with
    minioNew := fun _ _ _ _ => (none, some "Endpoint url cannot have fully qualified paths.")
    putObject := fun client _ _ _ =>
      match client with
      | none => CallResult.panic
      | some _ => CallResult.ok
    removeObject := fun client _ _ =>
      match client with
      | none => CallResult.panic
      | some _ => CallResult.ok }

/-- A complete command line with one positional argument. -/
def sampleContext : Context where
  args := ["a.bin"]
  verbose := false
  veryVerbose := false
  endpoint := "localhost"
  port := 9000
  accessKey := "minio"
  secretKey := "minio123"
  bucket := "test"
  insecure := true

/-! ## Lemmas on the size formatter -/

theorem roundHalfEven_error (a b : Nat) (hb : 0 < b) :
    2 * (roundHalfEven a b * b) ≤ 2 * a + b ∧ 2 * a ≤ 2 * (roundHalfEven a b * b) + b := by
  have h1 := Nat.div_add_mod a b
  have h2 := Nat.mod_lt a hb
  have h3 : (a / b + 1) * b = a / b * b + b := by ring
  have h4 : b * (a / b) = a / b * b := by ring
  unfold roundHalfEven
  simp only
  split_ifs <;> constructor <;> omega

theorem roundHalfEven_one (a : Nat) : roundHalfEven a 1 = a := by
  unfold roundHalfEven
  simp [Nat.mod_one]

theorem excessBits_spec : ∀ (fuel n : Nat), n < 2 ^ (53 + fuel) →
    n < 2 ^ (53 + excessBits fuel n) ∧
      (excessBits fuel n = 0 ∨ 2 ^ (52 + excessBits fuel n) ≤ n)
  | 0, n, h => by simpa [excessBits] using h
  | fuel + 1, n, h => by
    unfold excessBits
    split_ifs with hlt
    · exact ⟨by simpa using hlt, Or.inl rfl⟩
    · have hn : n / 2 < 2 ^ (53 + fuel) := by
        rw [Nat.div_lt_iff_lt_mul (by norm_num)]
        calc n < 2 ^ (53 + (fuel + 1)) := h
          _ = 2 ^ (53 + fuel) * 2 := by ring
      obtain ⟨ih1, ih2⟩ := excessBits_spec fuel (n / 2) hn
      have e1 : 2 ^ (53 + (excessBits fuel (n / 2) + 1)) = 2 ^ (53 + excessBits fuel (n / 2)) * 2 := by
        ring
      have e2 : 2 ^ (52 + (excessBits fuel (n / 2) + 1)) = 2 ^ (52 + excessBits fuel (n / 2)) * 2 := by
        ring
      refine ⟨?_, Or.inr ?_⟩
      · rw [e1]; omega
      · rw [e2]
        rcases ih2 with h0 | h0
        · rw [h0]; simp at hlt ⊢; omega
        · omega

theorem float64_exact (n : Nat) (h : n < 2 ^ 53) : float64 n = n := by
  have : excessBits 11 n = 0 := by
    unfold excessBits
    rw [if_pos h]
  unfold float64
  simp [this, roundHalfEven_one]

theorem float64_error (n : Nat) (h : n < 2 ^ 64) :
    2 ^ 53 * float64 n ≤ 2 ^ 53 * n + n ∧ 2 ^ 53 * n ≤ 2 ^ 53 * float64 n + n := by
  obtain ⟨h1, h2⟩ := excessBits_spec 11 n (by simpa using h)
  rcases h2 with h0 | h0
  · have : float64 n = n := by
      unfold float64
      simp [h0, roundHalfEven_one]
    rw [this]; omega
  · have hr := roundHalfEven_error n (2 ^ excessBits 11 n) (by positivity)
    have e : (2 : Nat) ^ (52 + excessBits 11 n) = 2 ^ 52 * 2 ^ excessBits 11 n := by
      rw [pow_add]
    have e53 : (2 : Nat) ^ 53 = 2 * 2 ^ 52 := by norm_num
    unfold float64
    simp only
    generalize roundHalfEven n (2 ^ excessBits 11 n) * 2 ^ excessBits 11 n = F at hr ⊢
    generalize (2 : Nat) ^ excessBits 11 n = P at hr e
    rw [e] at h0
    constructor <;> nlinarith

theorem digitChar_spec (d : Nat) (h : d < 10) :
    (Nat.digitChar d).isDigit = true ∧ (Nat.digitChar d).toNat - 48 = d := by
  interval_cases d <;> decide

theorem toDigitsCore_append : ∀ (fuel n : Nat) (ds : List Char),
    Nat.toDigitsCore 10 fuel n ds = Nat.toDigitsCore 10 fuel n [] ++ ds
  | 0, n, ds => by simp [Nat.toDigitsCore]
  | fuel + 1, n, ds => by
    simp only [Nat.toDigitsCore]
    split_ifs
    · simp
    · rw [toDigitsCore_append fuel (n / 10) (_ :: ds), toDigitsCore_append fuel (n / 10) [_]]
      simp

theorem toDigitsCore_isDigit : ∀ (fuel n : Nat), ∀ c ∈ Nat.toDigitsCore 10 fuel n [],
    c.isDigit = true
  | 0, n, c, hc => by simp [Nat.toDigitsCore] at hc
  | fuel + 1, n, c, hc => by
    have hd := (digitChar_spec (n % 10) (Nat.mod_lt n (by norm_num))).1
    simp only [Nat.toDigitsCore] at hc
    split_ifs at hc
    · simp at hc; rw [hc]; exact hd
    · rw [toDigitsCore_append] at hc
      simp at hc
      rcases hc with hc | hc
      · exact toDigitsCore_isDigit fuel (n / 10) c hc
      · rw [hc]; exact hd

theorem decimalValue_append_singleton (xs : List Char) (c : Char) :
    decimalValue (xs ++ [c]) = 10 * decimalValue xs + (c.toNat - 48) := by
  simp [decimalValue]

theorem toDigitsCore_value : ∀ (fuel n : Nat), n < fuel →
    decimalValue (Nat.toDigitsCore 10 fuel n []) = n
  | 0, n, h => by omega
  | fuel + 1, n, h => by
    have hd := (digitChar_spec (n % 10) (Nat.mod_lt n (by norm_num))).2
    simp only [Nat.toDigitsCore]
    split_ifs with h0
    · simp [decimalValue, hd]; omega
    · rw [toDigitsCore_append, decimalValue_append_singleton,
        toDigitsCore_value fuel (n / 10) (by omega), hd]
      omega

theorem toString_data (m : Nat) : (toString m).data = Nat.toDigits 10 m := rfl

theorem toDigits_isDigit (m : Nat) : ∀ c ∈ Nat.toDigits 10 m, c.isDigit = true :=
  toDigitsCore_isDigit (m + 1) m

theorem toDigits_value (m : Nat) : decimalValue (Nat.toDigits 10 m) = m :=
  toDigitsCore_value (m + 1) m (by omega)

theorem span_digits (xs ys : List Char) (c : Char) (hx : ∀ x ∈ xs, x.isDigit = true)
    (hc : c.isDigit = false) : (xs ++ c :: ys).span Char.isDigit = (xs, c :: ys) := by
  rw [List.span_eq_take_drop, List.takeWhile_append_of_pos hx, List.dropWhile_append_of_pos hx]
  simp [List.takeWhile, List.dropWhile, hc]

theorem readBack_integer (m : Nat) (u : List Char) (k : Nat) (hu : unitBytes u = some k) :
    readBack (toString m ++ String.mk (' ' :: u)) = some ((m : ℚ) * k) := by
  unfold readBack
  rw [String.data_append, toString_data, span_digits _ _ _ (toDigits_isDigit m) (by decide)]
  simp [hu, toDigits_value]

theorem readBack_fixed2 (h : Nat) (u : List Char) (k : Nat) (hu : unitBytes u = some k) :
    readBack (fixed2 h ++ String.mk (' ' :: u)) = some ((h : ℚ) / 100 * k) := by
  have h1 := digitChar_spec (h % 100 / 10) (by omega)
  have h2 := digitChar_spec (h % 100 % 10) (by omega)
  have hs : (fixed2 h ++ String.mk (' ' :: u)).data =
      Nat.toDigits 10 (h / 100) ++
        '.' :: ([Nat.digitChar (h % 100 / 10), Nat.digitChar (h % 100 % 10)] ++ ' ' :: u) := by
    simp [fixed2, twoDigits, toString_data]
  unfold readBack
  rw [hs, span_digits _ _ _ (toDigits_isDigit _) (by decide)]
  simp only
  rw [span_digits _ _ _ (by simp [h1.1, h2.1]) (by decide)]
  simp only [hu, Option.map_some']
  congr 1
  have hv : decimalValue [Nat.digitChar (h % 100 / 10), Nat.digitChar (h % 100 % 10)] = h % 100 := by
    simp [decimalValue, h1.2, h2.2]; omega
  rw [toDigits_value, hv]
  have hq : (h : ℚ) = ((h / 100 : Nat) : ℚ) * 100 + ((h % 100 : Nat) : ℚ) := by
    have := Nat.div_add_mod h 100
    exact_mod_cast (by omega : h = h / 100 * 100 + h % 100)
  simp only [List.length_cons, List.length_nil]
  rw [hq]
  push_cast
  ring

theorem fixed2_bound (m k : Nat) (hk : 0 < k) (hkm : k ≤ m) (hk40 : k ≤ 2 ^ 40)
    (hm : m < 2 ^ 64) :
    2 * (roundHalfEven (100 * float64 m) k * k) ≤ 201 * m ∧
      199 * m ≤ 2 * (roundHalfEven (100 * float64 m) k * k) := by
  have hr := roundHalfEven_error (100 * float64 m) k hk
  have hf := float64_error m hm
  norm_num at hk40 hf
  by_cases hlt : m < 2 ^ 53
  · rw [float64_exact m hlt] at hr ⊢
    omega
  · norm_num at hlt
    omega

theorem readBack_bytes (m : Nat) :
    readBack (getHumanReadableSize (m : Int)) =
      if m < 1024 then some (m : ℚ)
      else some ((roundHalfEven (100 * float64 m)
        (if m < 1024 * 1024 then 1024 else if m < 1024 * 1024 * 1024 then 1024 * 1024
          else if m < 1024 * 1024 * 1024 * 1024 then 1024 * 1024 * 1024
          else 1024 * 1024 * 1024 * 1024) : ℚ) / 100 *
        ((if m < 1024 * 1024 then 1024 else if m < 1024 * 1024 * 1024 then 1024 * 1024
          else if m < 1024 * 1024 * 1024 * 1024 then 1024 * 1024 * 1024
          else 1024 * 1024 * 1024 * 1024 : Nat) : ℚ)) := by
  unfold getHumanReadableSize
  simp only [Int.toNat_ofNat]
  by_cases h1 : m < 1024
  · rw [if_pos (by exact_mod_cast h1), if_pos h1]
    have := readBack_integer m ['B'] 1 rfl
    simpa using this
  rw [if_neg (by exact_mod_cast h1), if_neg h1]
  by_cases h2 : m < 1024 * 1024
  · rw [if_pos (by exact_mod_cast h2), if_pos h2]
    exact readBack_fixed2 _ ['K', 'i', 'B'] 1024 rfl
  rw [if_neg (by exact_mod_cast h2), if_neg h2]
  by_cases h3 : m < 1024 * 1024 * 1024
  · rw [if_pos (by exact_mod_cast h3), if_pos h3]
    exact readBack_fixed2 _ ['M', 'i', 'B'] (1024 * 1024) rfl
  rw [if_neg (by exact_mod_cast h3), if_neg h3]
  by_cases h4 : m < 1024 * 1024 * 1024 * 1024
  · rw [if_pos (by exact_mod_cast h4), if_pos h4]
    exact readBack_fixed2 _ ['G', 'i', 'B'] (1024 * 1024 * 1024) rfl
  rw [if_neg (by exact_mod_cast h4), if_neg h4]
  exact readBack_fixed2 _ ['T', 'i', 'B'] (1024 * 1024 * 1024 * 1024) rfl

/-! ## Theorems on the size formatter -/

/-- C2: for every byte count `0 ≤ n < 2 ^ 63`, the output of
`getHumanReadableSize n` reads back (printed magnitude times the size of the
printed unit) as a value `v` with `v = n` when `n < 1024` and
`|v - n| ≤ 0.005 * n` when `n ≥ 1024`. -/
theorem getHumanReadableSize_readBack (n : Int) (h0 : 0 ≤ n) (h63 : n < 2 ^ 63) :
    ∃ v : ℚ, readBack (getHumanReadableSize n) = some v ∧
      (n < 1024 → v = (n : ℚ)) ∧ (1024 ≤ n → |v - (n : ℚ)| ≤ 5 / 1000 * (n : ℚ)) := by
  obtain ⟨m, rfl⟩ := Int.eq_ofNat_of_zero_le h0
  have hm : m < 2 ^ 64 := by
    have : (m : Int) < 2 ^ 64 := lt_trans h63 (by norm_num)
    exact_mod_cast this
  rw [readBack_bytes]
  by_cases h1 : m < 1024
  · rw [if_pos h1]
    exact ⟨_, rfl, fun _ => by simp, fun h => by omega⟩
  rw [if_neg h1]
  refine ⟨_, rfl, fun h => by omega, fun _ => ?_⟩
  have key : ∀ k : Nat, 0 < k → k ≤ m → k ≤ 2 ^ 40 →
      |(roundHalfEven (100 * float64 m) k : ℚ) / 100 * (k : ℚ) - ((m : Int) : ℚ)| ≤
        5 / 1000 * ((m : Int) : ℚ) := by
    intro k hk hkm hk40
    obtain ⟨b1, b2⟩ := fixed2_bound m k hk hkm hk40 hm
    have c1 : (2 : ℚ) * ((roundHalfEven (100 * float64 m) k : ℚ) * (k : ℚ)) ≤ 201 * (m : ℚ) := by
      exact_mod_cast b1
    have c2 : (199 : ℚ) * (m : ℚ) ≤ 2 * ((roundHalfEven (100 * float64 m) k : ℚ) * (k : ℚ)) := by
      exact_mod_cast b2
    rw [abs_le]
    push_cast
    constructor <;> linarith
  apply key <;> split_ifs <;> norm_num <;> omega

theorem getHumanReadableSize_readBack_witness :
    ∃ v : ℚ, readBack (getHumanReadableSize 1536) = some v ∧
      ((1536 : Int) < 1024 → v = ((1536 : Int) : ℚ)) ∧
      ((1024 : Int) ≤ 1536 → |v - ((1536 : Int) : ℚ)| ≤ 5 / 1000 * ((1536 : Int) : ℚ)) :=
  getHumanReadableSize_readBack 1536 (by decide) (by decide)

/-- C1 (as stated) fails: the byte count `9007215747415409` lies in the TiB
range, its exact quotient by `1024 ^ 4` lies strictly between `8192.015` and
`8192.025`, so that quotient in two-decimal fixed point is `8192.02`, but
`getHumanReadableSize` prints `8192.01 TiB`, because `float64(size)` has
already rounded the byte count down to `9007215747415408`. -/
theorem getHumanReadableSize_tib_not_exact :
    (1024 : Int) ^ 4 ≤ 9007215747415409 ∧ (9007215747415409 : Int) < 2 ^ 63 ∧
      (2 * 819201 + 1) * 1024 ^ 4 < 2 * (100 * 9007215747415409) ∧
      2 * (100 * 9007215747415409) < (2 * 819202 + 1) * 1024 ^ 4 ∧
      sprintfF2 9007215747415409 (1024 ^ 4) = "8192.02" ∧
      float64 9007215747415409 = 9007215747415408 ∧
      getHumanReadableSize 9007215747415409 = "8192.01 TiB" ∧
      getHumanReadableSize 9007215747415409 ≠
        sprintfF2 9007215747415409 (1024 ^ 4) ++ " TiB" := by
  decide

/-- C1 (amended): for every byte count `0 ≤ n < 2 ^ 63` the unit is picked by
strict less-than thresholds; below `1024` the output is the decimal integer
followed by ` B`; in the KiB, MiB and GiB ranges it is the exact quotient
`n / unit` in two-decimal fixed point followed by the unit; from `1024 ^ 4` on
it is `float64(n) / 1024 ^ 4` in two-decimal fixed point followed by ` TiB`,
where `float64(n)` equals `n` up to `2 ^ 53` and differs from `n` by at most
`n / 2 ^ 53` above; and the four boundary examples hold. -/
theorem getHumanReadableSize_units (n : Int) (h0 : 0 ≤ n) (h63 : n < 2 ^ 63) :
    (n < 1024 → getHumanReadableSize n = toString n ++ " B") ∧
    (1024 ≤ n → n < 1024 ^ 2 →
      getHumanReadableSize n = sprintfF2 n.toNat 1024 ++ " KiB") ∧
    (1024 ^ 2 ≤ n → n < 1024 ^ 3 →
      getHumanReadableSize n = sprintfF2 n.toNat (1024 ^ 2) ++ " MiB") ∧
    (1024 ^ 3 ≤ n → n < 1024 ^ 4 →
      getHumanReadableSize n = sprintfF2 n.toNat (1024 ^ 3) ++ " GiB") ∧
    (1024 ^ 4 ≤ n →
      getHumanReadableSize n = sprintfF2 (float64 n.toNat) (1024 ^ 4) ++ " TiB") ∧
    (n ≤ 2 ^ 53 → float64 n.toNat = n.toNat) ∧
    2 ^ 53 * float64 n.toNat ≤ 2 ^ 53 * n.toNat + n.toNat ∧
    2 ^ 53 * n.toNat ≤ 2 ^ 53 * float64 n.toNat + n.toNat ∧
    getHumanReadableSize 1023 = "1023 B" ∧
    getHumanReadableSize 1024 = "1.00 KiB" ∧
    getHumanReadableSize 1048575 = "1024.00 KiB" ∧
    getHumanReadableSize 1048576 = "1.00 MiB" := by
  obtain ⟨m, rfl⟩ := Int.eq_ofNat_of_zero_le h0
  have hm : m < 2 ^ 64 := by
    have : (m : Int) < 2 ^ 64 := lt_trans h63 (by norm_num)
    exact_mod_cast this
  have hex : ∀ k : Nat, m < k → k ≤ 2 ^ 53 → float64 m = m := fun k h1 h2 =>
    float64_exact m (lt_of_lt_of_le h1 h2)
  simp only [Int.toNat_ofNat]
  refine ⟨?_, ?_, ?_, ?_, ?_, ?_, (float64_error m hm).1, (float64_error m hm).2,
    by decide, by decide, by decide, by decide⟩
  · intro h
    unfold getHumanReadableSize
    rw [if_pos h]
    rfl
  · intro h1 h2
    unfold getHumanReadableSize
    rw [if_neg (by omega), if_pos (by omega), Int.toNat_ofNat,
      hex (1024 ^ 2) (by exact_mod_cast h2) (by norm_num)]
  · intro h1 h2
    unfold getHumanReadableSize
    rw [if_neg (by omega), if_neg (by omega), if_pos (by omega), Int.toNat_ofNat,
      hex (1024 ^ 3) (by exact_mod_cast h2) (by norm_num)]
    rfl
  · intro h1 h2
    unfold getHumanReadableSize
    rw [if_neg (by omega), if_neg (by omega), if_neg (by omega), if_pos (by omega),
      Int.toNat_ofNat, hex (1024 ^ 4) (by exact_mod_cast h2) (by norm_num)]
    rfl
  · intro h1
    unfold getHumanReadableSize
    rw [if_neg (by omega), if_neg (by omega), if_neg (by omega), if_neg (by omega),
      Int.toNat_ofNat]
    rfl
  · intro h
    have h' : m ≤ 2 ^ 53 := by exact_mod_cast h
    rcases Nat.lt_or_ge m (2 ^ 53) with hlt | hge
    · exact float64_exact m hlt
    · have : m = 2 ^ 53 := le_antisymm h' hge
      rw [this]
      decide

theorem getHumanReadableSize_units_witness :
    getHumanReadableSize 1536 = sprintfF2 (1536 : Int).toNat 1024 ++ " KiB" :=
  (getHumanReadableSize_units 1536 (by decide) (by decide)).2.1 (by decide) (by decide)

/-! ## Lemmas on the process -/

theorem bind_apply {α β : Type} (m : Proc α) (f : α → Proc β) (w : World) :
    (m >>= f) w = Proc.bind m f w := rfl

theorem pure_apply {α : Type} (a : α) (w : World) :
    (pure a : Proc α) w = Outcome.returned a w := rfl

theorem level_le_fatal (l : Level) : l.toInt ≤ Level.fatal.toInt := by
  cases l <;> decide

theorem fatal_msg (msg : String) (w : World) :
    log.Fatal.Msg msg w = Outcome.exited 1 (w.after [Effect.log ⟨Level.fatal, msg, none⟩]) := by
  simp [Event.Msg, log.Fatal, level_le_fatal, World.after]

theorem fatal_err_msg (e msg : String) (w : World) :
    (log.Fatal.Err e).Msg msg w =
      Outcome.exited 1 (w.after [Effect.log ⟨Level.fatal, msg, some e⟩]) := by
  simp [Event.Msg, Event.Err, log.Fatal, level_le_fatal, World.after]

theorem info_msg (msg : String) (w : World) (h : w.globalLevel.toInt ≤ Level.info.toInt) :
    log.Info.Msg msg w = Outcome.returned () (w.after [Effect.log ⟨Level.info, msg, none⟩]) := by
  simp [Event.Msg, log.Info, h, World.after]

theorem err_msg (e msg : String) (w : World) (h : w.globalLevel.toInt ≤ Level.info.toInt) :
    (log.Err e).Msg msg w =
      Outcome.returned () (w.after [Effect.log ⟨Level.error, msg, some e⟩]) := by
  have h3 : w.globalLevel.toInt ≤ Level.error.toInt := le_trans h (by decide)
  simp [Event.Msg, log.Err, h3, World.after]

theorem info_msg_any (msg : String) (w : World) :
    log.Info.Msg msg w = Outcome.returned ()
      (w.after (if w.globalLevel.toInt ≤ Level.info.toInt
        then [Effect.log ⟨Level.info, msg, none⟩] else [])) := by
  by_cases h : w.globalLevel.toInt ≤ Level.info.toInt
  · simp [Event.Msg, log.Info, h, World.after]
  · simp [Event.Msg, log.Info, h, World.after]

theorem after_after (w : World) (es fs : List Effect) :
    (w.after es).after fs = w.after (es ++ fs) := by
  simp [World.after]

theorem after_globalLevel (w : World) (es : List Effect) :
    (w.after es).globalLevel = w.globalLevel := rfl

theorem step_apply (e : Effect) (w : World) : step e w = Outcome.returned () (w.after [e]) := rfl

/-- The message of the first missing field, in the order of the checks of
`getS3Client`. -/
theorem getS3Client_missing (env : Env) (c : Context) (w : World)
    (h : c.endpoint = "" ∨ c.port = 0 ∨ c.accessKey = "" ∨ c.secretKey = "") :
    getS3Client env c w = Outcome.exited 1 (w.after [Effect.log ⟨Level.fatal,
      (if c.endpoint = "" then "Please specify an S3 endpoint"
        else if c.port = 0 then "Please specify an S3 port"
        else if c.accessKey = "" then "Please specify an S3 access key"
        else "Please specify an S3 secret key"), none⟩]) := by
  by_cases h1 : c.endpoint = ""
  · simp [getS3Client, bind_apply, Proc.bind, h1, fatal_msg]
  by_cases h2 : c.port = 0
  · simp [getS3Client, bind_apply, Proc.bind, h1, h2, fatal_msg, pure_apply]
  by_cases h3 : c.accessKey = ""
  · simp [getS3Client, bind_apply, Proc.bind, h1, h2, h3, fatal_msg, pure_apply]
  have h4 : c.secretKey = "" := by tauto
  simp [getS3Client, bind_apply, Proc.bind, h1, h2, h3, h4, fatal_msg, pure_apply]

theorem upload_args_fatal (env : Env) (c : Context) (w : World)
    (h : c.args.length ≠ 1) :
    upload env c w = Outcome.exited 1
      (w.after [Effect.log ⟨Level.fatal, "Please specify a file to upload", none⟩]) := by
  simp [upload, bind_apply, Proc.bind, h, fatal_msg]

theorem remove_args_fatal (env : Env) (c : Context) (w : World)
    (h : c.args.length ≠ 1) :
    remove env c w = Outcome.exited 1
      (w.after [Effect.log ⟨Level.fatal, "Please specify an object to remove", none⟩]) := by
  simp [remove, bind_apply, Proc.bind, h, fatal_msg]

theorem getS3Client_proceeds (env : Env) (c : Context) (w : World)
    (h1 : c.endpoint ≠ "") (h2 : c.port ≠ 0) (h3 : c.accessKey ≠ "") (h4 : c.secretKey ≠ "")
    (hl : w.globalLevel.toInt ≤ Level.info.toInt) :
    getS3Client env c w = Outcome.returned (constructedClient env c) (w.after (connectSteps c)) := by
  simp [getS3Client, bind_apply, Proc.bind, h1, h2, h3, h4, pure_apply, info_msg _ _ hl,
    step_apply, after_after, constructedClient, connectSteps, composedEndpoint, Event.dropped]
  cases (env.minioNew (c.endpoint ++ ":" ++ sprintfD c.port) c.accessKey c.secretKey
    (!c.insecure)).2 <;> rfl

/-! ## Theorems on the actions -/

/-- C6: for every argument list whose length is not exactly one, `upload`
exits with code 1 after the single fatal record "Please specify a file to
upload" and `remove` exits with code 1 after the single fatal record "Please
specify an object to remove"; no file stat, client construction or network
request has taken place. -/
theorem wrong_argument_count (env : Env) (c : Context) (w : World) (h : c.args.length ≠ 1) :
    upload env c w = Outcome.exited 1
      (w.after [Effect.log ⟨Level.fatal, "Please specify a file to upload", none⟩]) ∧
    remove env c w = Outcome.exited 1
      (w.after [Effect.log ⟨Level.fatal, "Please specify an object to remove", none⟩]) := by
  exact ⟨upload_args_fatal env c w h, remove_args_fatal env c w h⟩

/-- C3: for every configuration whose endpoint is empty, or whose port is 0,
or whose access key is empty, or whose secret key is empty, `getS3Client`
exits with code 1 after one fatal record naming the first missing field (in
the order endpoint, port, access key, secret key) and constructs no client;
`upload` and `remove` then exit with code 1 without any client construction,
PUT or delete among the steps they have taken. -/
theorem missing_config_is_fatal (env : Env) (c : Context) (w : World)
    (h : c.endpoint = "" ∨ c.port = 0 ∨ c.accessKey = "" ∨ c.secretKey = "") :
    getS3Client env c w = Outcome.exited 1 (w.after [Effect.log ⟨Level.fatal,
      (if c.endpoint = "" then "Please specify an S3 endpoint"
        else if c.port = 0 then "Please specify an S3 port"
        else if c.accessKey = "" then "Please specify an S3 access key"
        else "Please specify an S3 secret key"), none⟩]) ∧
    (∃ es, upload env c w = Outcome.exited 1 (w.after es) ∧ ∀ e ∈ es, e.isS3 = false) ∧
    (∃ es, remove env c w = Outcome.exited 1 (w.after es) ∧ ∀ e ∈ es, e.isS3 = false) := by
  refine ⟨getS3Client_missing env c w h, ?_, ?_⟩
  · by_cases ha : c.args.length ≠ 1
    · exact ⟨_, (upload_args_fatal env c w ha), by simp [Effect.isS3]⟩
    cases hs : env.stat (First c.args) with
    | error e =>
      refine ⟨[Effect.stat (First c.args), Effect.log ⟨Level.fatal,
        "File '" ++ First c.args ++ "' does not exist", some e⟩], ?_, ?_⟩
      · simp [upload, bind_apply, Proc.bind, ha, hs, fatal_err_msg, pure_apply, step_apply,
          after_after]
      · simp [Effect.isS3]
    | ok size =>
      cases ho : env.openFile (First c.args) with
      | some e =>
        refine ⟨[Effect.stat (First c.args)] ++ (if w.globalLevel.toInt ≤ Level.info.toInt
          then [Effect.log ⟨Level.info, "File '" ++ First c.args ++ "' exists with size '" ++
            getHumanReadableSize size ++ "'", none⟩] else []) ++
          [Effect.openFile (First c.args), Effect.log ⟨Level.fatal,
            "Failed to open file '" ++ First c.args ++ "'", some e⟩], ?_, ?_⟩
        · simp [upload, bind_apply, Proc.bind, ha, hs, ho, fatal_err_msg, pure_apply,
            step_apply, after_after, info_msg_any, after_globalLevel]
        · split_ifs <;> simp [Effect.isS3]
      | none =>
        refine ⟨[Effect.stat (First c.args)] ++ (if w.globalLevel.toInt ≤ Level.info.toInt
          then [Effect.log ⟨Level.info, "File '" ++ First c.args ++ "' exists with size '" ++
            getHumanReadableSize size ++ "'", none⟩] else []) ++
          [Effect.openFile (First c.args), Effect.log ⟨Level.fatal,
            (if c.endpoint = "" then "Please specify an S3 endpoint"
              else if c.port = 0 then "Please specify an S3 port"
              else if c.accessKey = "" then "Please specify an S3 access key"
              else "Please specify an S3 secret key"), none⟩], ?_, ?_⟩
        · simp [upload, bind_apply, Proc.bind, ha, hs, ho, pure_apply,
            step_apply, after_after, info_msg_any, after_globalLevel, getS3Client_missing _ _ _ h]
        · split_ifs <;> simp [Effect.isS3]
  · by_cases ha : c.args.length ≠ 1
    · exact ⟨_, (remove_args_fatal env c w ha), by simp [Effect.isS3]⟩
    refine ⟨[Effect.log ⟨Level.fatal,
      (if c.endpoint = "" then "Please specify an S3 endpoint"
        else if c.port = 0 then "Please specify an S3 port"
        else if c.accessKey = "" then "Please specify an S3 access key"
        else "Please specify an S3 secret key"), none⟩], ?_, by simp [Effect.isS3]⟩
    simp [remove, bind_apply, Proc.bind, ha, pure_apply, getS3Client_missing _ _ _ h]

/-- C4: in `upload`, once the PUT request has been issued, an error returned
by the PUT is not fatal: one error-level record "Failed to upload" is
written, then the two statistics records, and the function returns; when the
PUT succeeds exactly the two statistics records follow the request and the
function returns. -/
theorem upload_put_error_not_fatal (env : Env) (c : Context) (w : World) (path : String)
    (size : Int) (hargs : c.args = [path]) (hstat : env.stat path = Except.ok size)
    (hopen : env.openFile path = none)
    (h1 : c.endpoint ≠ "") (h2 : c.port ≠ 0) (h3 : c.accessKey ≠ "") (h4 : c.secretKey ≠ "")
    (hl : w.globalLevel.toInt ≤ Level.info.toInt) :
    (∀ e, env.putObject (constructedClient env c) c.bucket env.uuid size = CallResult.error e →
      upload env c w = Outcome.returned () (w.after (uploadSteps env c path size ++
        [Effect.log ⟨Level.error, "Failed to upload", some e⟩] ++ statsRecords env size))) ∧
    (env.putObject (constructedClient env c) c.bucket env.uuid size = CallResult.ok →
      upload env c w = Outcome.returned () (w.after (uploadSteps env c path size ++
        statsRecords env size))) := by
  have hlen : c.args.length = 1 := by simp [hargs]
  have hF : First c.args = path := by simp [First, hargs]
  constructor
  · intro e hput
    simp [upload, bind_apply, Proc.bind, hlen, hF, hstat, hopen, pure_apply, step_apply,
      info_msg, err_msg, after_globalLevel, hl, getS3Client_proceeds, h1, h2, h3, h4, call,
      hput, after_after, uploadSteps, statsRecords, World.after]
  · intro hput
    simp [upload, bind_apply, Proc.bind, hlen, hF, hstat, hopen, pure_apply, step_apply,
      info_msg, err_msg, after_globalLevel, hl, getS3Client_proceeds, h1, h2, h3, h4, call,
      hput, after_after, uploadSteps, statsRecords, World.after]

/-- C5: in `remove`, with exactly one positional argument `name` and a
configuration that passes the checks of `getS3Client`, one delete is issued
for the bucket and `name` verbatim; when the delete returns an error the
process exits with code 1 after the fatal record "Failed to remove object
'name'" and no success record is written; when it succeeds the info record
"Removed object 'name'" is written and the function returns. -/
theorem remove_outcomes (env : Env) (c : Context) (w : World) (name : String)
    (hargs : c.args = [name])
    (h1 : c.endpoint ≠ "") (h2 : c.port ≠ 0) (h3 : c.accessKey ≠ "") (h4 : c.secretKey ≠ "")
    (hl : w.globalLevel.toInt ≤ Level.info.toInt) :
    (∀ e, env.removeObject (constructedClient env c) c.bucket name = CallResult.error e →
      remove env c w = Outcome.exited 1 (w.after (connectSteps c ++
        [Effect.removeObject (constructedClient env c) c.bucket name,
          Effect.log ⟨Level.fatal, "Failed to remove object '" ++ name ++ "'", some e⟩]))) ∧
    (env.removeObject (constructedClient env c) c.bucket name = CallResult.ok →
      remove env c w = Outcome.returned () (w.after (connectSteps c ++
        [Effect.removeObject (constructedClient env c) c.bucket name,
          Effect.log ⟨Level.info, "Removed object '" ++ name ++ "'", none⟩]))) := by
  have hlen : c.args.length = 1 := by simp [hargs]
  have hF : First c.args = name := by simp [First, hargs]
  constructor
  · intro e hdel
    simp [remove, bind_apply, Proc.bind, hlen, hF, pure_apply, info_msg, fatal_err_msg,
      after_globalLevel, hl, getS3Client_proceeds, h1, h2, h3, h4, call, hdel, after_after,
      World.after]
  · intro hdel
    simp [remove, bind_apply, Proc.bind, hlen, hF, pure_apply, info_msg, fatal_err_msg,
      after_globalLevel, hl, getS3Client_proceeds, h1, h2, h3, h4, call, hdel, after_after,
      World.after]

theorem wrong_argument_count_witness :
    ({ sampleContext with args := [] } : Context).args.length ≠ 1 ∧
    upload sampleEnv { sampleContext with args := [] } World.initial = Outcome.exited 1
      (World.initial.after
        [Effect.log ⟨Level.fatal, "Please specify a file to upload", none⟩]) ∧
    remove sampleEnv { sampleContext with args := [] } World.initial = Outcome.exited 1
      (World.initial.after
        [Effect.log ⟨Level.fatal, "Please specify an object to remove", none⟩]) :=
  ⟨by decide, wrong_argument_count sampleEnv { sampleContext with args := [] } World.initial
    (by decide)⟩

theorem missing_config_is_fatal_witness :
    getS3Client sampleEnv { sampleContext with port := 0 } World.initial = Outcome.exited 1
      (World.initial.after
        [Effect.log ⟨Level.fatal, "Please specify an S3 port", none⟩]) :=
  (missing_config_is_fatal sampleEnv { sampleContext with port := 0 } World.initial
    (Or.inr (Or.inl rfl))).1

theorem upload_put_error_not_fatal_witness :
    upload refusingEnv sampleContext World.initial = Outcome.returned ()
      (World.initial.after (uploadSteps refusingEnv sampleContext "a.bin" 5242880 ++
        [Effect.log ⟨Level.error, "Failed to upload", some "Access Denied."⟩] ++
        statsRecords refusingEnv 5242880)) :=
  (upload_put_error_not_fatal refusingEnv sampleContext World.initial "a.bin" 5242880 rfl rfl rfl
    (by decide) (by decide) (by decide) (by decide) (by decide)).1 "Access Denied." rfl

theorem remove_outcomes_witness :
    remove refusingEnv { sampleContext with args := ["XYZ"] } World.initial = Outcome.exited 1
      (World.initial.after (connectSteps { sampleContext with args := ["XYZ"] } ++
        [Effect.removeObject (some ⟨1⟩) "test" "XYZ",
          Effect.log ⟨Level.fatal, "Failed to remove object 'XYZ'", some "Access Denied."⟩])) :=
  (remove_outcomes refusingEnv { sampleContext with args := ["XYZ"] } World.initial "XYZ" rfl
    (by decide) (by decide) (by decide) (by decide) (by decide)).1 "Access Denied." rfl

/-- C7 (as stated) fails: with port `70000`, and likewise with port `-1`,
`getS3Client` does not refuse; it composes the endpoints `localhost:70000`
and `localhost:-1` and calls the client constructor with them. -/
theorem getS3Client_accepts_out_of_range_port :
    getS3Client sampleEnv { sampleContext with port := 70000 } World.initial =
      Outcome.returned (some ⟨1⟩) (World.initial.after
        [Effect.log ⟨Level.info, "Connecting to S3 host 'localhost' on port '70000'", none⟩,
          Effect.newClient "localhost:70000" "minio" "minio123" false]) ∧
    getS3Client sampleEnv { sampleContext with port := -1 } World.initial =
      Outcome.returned (some ⟨1⟩) (World.initial.after
        [Effect.log ⟨Level.info, "Connecting to S3 host 'localhost' on port '-1'", none⟩,
          Effect.newClient "localhost:-1" "minio" "minio123" false]) := by
  decide

/-- C7 (amended): on a configuration with non-empty endpoint, access key and
secret key, `getS3Client` refuses exactly the port value 0 (fatal record
"Please specify an S3 port", no endpoint composed); for every other port
value, negative or above 65535 included, it composes `<host>:<port>`, calls
the client constructor with it and returns the constructor's client. -/
theorem getS3Client_port_check (env : Env) (c : Context) (w : World)
    (h1 : c.endpoint ≠ "") (h3 : c.accessKey ≠ "") (h4 : c.secretKey ≠ "")
    (hl : w.globalLevel.toInt ≤ Level.info.toInt) :
    (c.port = 0 → getS3Client env c w = Outcome.exited 1
      (w.after [Effect.log ⟨Level.fatal, "Please specify an S3 port", none⟩])) ∧
    (c.port ≠ 0 → getS3Client env c w = Outcome.returned (constructedClient env c)
      (w.after [Effect.log ⟨Level.info, "Connecting to S3 host '" ++ c.endpoint ++
          "' on port '" ++ sprintfD c.port ++ "'", none⟩,
        Effect.newClient (c.endpoint ++ ":" ++ sprintfD c.port) c.accessKey c.secretKey
          (!c.insecure)])) := by
  constructor
  · intro h2
    have := getS3Client_missing env c w (Or.inr (Or.inl h2))
    simpa [h1, h2] using this
  · intro h2
    exact getS3Client_proceeds env c w h1 h2 h3 h4 hl

theorem getS3Client_port_check_witness :
    getS3Client sampleEnv { sampleContext with port := 65536 } World.initial =
      Outcome.returned (constructedClient sampleEnv { sampleContext with port := 65536 })
        (World.initial.after
          [Effect.log ⟨Level.info, "Connecting to S3 host '" ++ "localhost" ++
              "' on port '" ++ sprintfD 65536 ++ "'", none⟩,
            Effect.newClient ("localhost" ++ ":" ++ sprintfD 65536) "minio" "minio123"
              (!true)]) :=
  (getS3Client_port_check sampleEnv { sampleContext with port := 65536 } World.initial
    (by decide) (by decide) (by decide) (by decide)).2 (by decide)

theorem initLogger_level (c : Context) (w : World) :
    initLogger c w = Outcome.returned ()
      (({ w with
          consoleOutput := true
          globalLevel := if c.veryVerbose then Level.trace
            else if c.verbose then Level.debug else w.globalLevel } : World).after
        (if (if c.veryVerbose then Level.trace
            else if c.verbose then Level.debug else w.globalLevel).toInt ≤ Level.info.toInt
          then [Effect.log ⟨Level.info, "Logger initialized on level '" ++
            (if c.veryVerbose then Level.trace
              else if c.verbose then Level.debug else w.globalLevel).String ++ "'", none⟩]
          else [])) := by
  cases hv : c.veryVerbose <;> cases hb : c.verbose <;>
    simp [initLogger, bind_apply, Proc.bind, hv, hb, pure_apply, setLogOutput, applyLogLevel,
      SetGlobalLevel, GlobalLevel, info_msg_any]

theorem initLogger_enables_info (c : Context) :
    ∃ w, initLogger c World.initial = Outcome.returned () w ∧
      w.globalLevel.toInt ≤ Level.info.toInt := by
  refine ⟨_, initLogger_level c World.initial, ?_⟩
  cases c.veryVerbose <;> cases c.verbose <;> decide

/-- A complete run of the `upload` command on the sample inputs: a file of
5 MiB, every collaborator succeeding. -/
theorem uploadAction_sample :
    uploadAction sampleEnv sampleContext World.initial = Outcome.returned ()
      ⟨Level.trace, true,
        [Effect.log ⟨Level.info, "Logger initialized on level 'trace'", none⟩] ++
          uploadSteps sampleEnv sampleContext "a.bin" 5242880 ++
          statsRecords sampleEnv 5242880⟩ ∧
    statsRecords sampleEnv 5242880 =
      [Effect.log ⟨Level.info, "Uploaded file with '5.00 MiB' in 1s", none⟩,
        Effect.log ⟨Level.info, "Average upload speed: 5.00 MiB/s", none⟩] := by
  decide

/-- C8 (the code at the failing input): with neither `verbose` nor
`very-verbose` set, `initLogger` run from the initial state of the process
calls `applyLogLevel` not at all, so the global level stays at `trace`, the
level `zerolog` starts with, and the record reads "Logger initialized on
level 'trace'"; the level is not `info`. With `verbose` alone the level is
`debug`, with `very-verbose` it is `trace`, as the claim says. -/
theorem initLogger_without_flags :
    sampleContext.verbose = false ∧ sampleContext.veryVerbose = false ∧
    initLogger sampleContext World.initial = Outcome.returned ()
      ⟨Level.trace, true,
        [Effect.log ⟨Level.info, "Logger initialized on level 'trace'", none⟩]⟩ ∧
    initLogger sampleContext World.initial ≠ Outcome.returned ()
      ⟨Level.info, true,
        [Effect.log ⟨Level.info, "Logger initialized on level 'info'", none⟩]⟩ ∧
    initLogger { sampleContext with verbose := true } World.initial = Outcome.returned ()
      ⟨Level.debug, true,
        [Effect.log ⟨Level.info, "Logger initialized on level 'debug'", none⟩]⟩ ∧
    initLogger { sampleContext with veryVerbose := true } World.initial = Outcome.returned ()
      ⟨Level.trace, true,
        [Effect.log ⟨Level.info, "Logger initialized on level 'trace'", none⟩]⟩ ∧
    initLogger { sampleContext with verbose := true, veryVerbose := true } World.initial =
      Outcome.returned ()
        ⟨Level.trace, true,
          [Effect.log ⟨Level.info, "Logger initialized on level 'trace'", none⟩]⟩ := by
  decide

/-- C9 (the code at the failing input): when `minio.New` returns an error,
`getS3Client` writes no fatal record and does not exit; it returns the nil
client, and `upload` and `remove` go on to issue their request on it. -/
theorem getS3Client_constructor_error_returns :
    getS3Client failingEnv { sampleContext with endpoint := "http://localhost" }
        World.initial =
      Outcome.returned none (World.initial.after
        [Effect.log ⟨Level.info, "Connecting to S3 host 'http://localhost' on port '9000'",
            none⟩,
          Effect.newClient "http://localhost:9000" "minio" "minio123" false]) ∧
    upload failingEnv { sampleContext with endpoint := "http://localhost" } World.initial =
      Outcome.panicked (World.initial.after
        (uploadSteps failingEnv { sampleContext with endpoint := "http://localhost" }
          "a.bin" 5242880)) ∧
    Effect.putObject none "test" failingEnv.uuid 5242880 ∈
      uploadSteps failingEnv { sampleContext with endpoint := "http://localhost" }
        "a.bin" 5242880 ∧
    remove failingEnv { sampleContext with endpoint := "http://localhost" } World.initial =
      Outcome.panicked (World.initial.after
        (connectSteps { sampleContext with endpoint := "http://localhost" } ++
          [Effect.removeObject none "test" "a.bin"])) := by
  decide

/-- C10: `applyLogLevel` sets the global level to trace for "trace", debug for
"debug", info for "info", warn for "warn" and "warning", error for "err" and
"error", and info for every other string, among them "fatal", the empty
string and "DEBUG". -/
theorem applyLogLevel_mapping (w : World) :
    applyLogLevel "trace" w = Outcome.returned () { w with globalLevel := Level.trace } ∧
    applyLogLevel "debug" w = Outcome.returned () { w with globalLevel := Level.debug } ∧
    applyLogLevel "info" w = Outcome.returned () { w with globalLevel := Level.info } ∧
    applyLogLevel "warn" w = Outcome.returned () { w with globalLevel := Level.warn } ∧
    applyLogLevel "warning" w = Outcome.returned () { w with globalLevel := Level.warn } ∧
    applyLogLevel "err" w = Outcome.returned () { w with globalLevel := Level.error } ∧
    applyLogLevel "error" w = Outcome.returned () { w with globalLevel := Level.error } ∧
    (∀ s : String, s ∉ ["trace", "debug", "info", "warn", "warning", "err", "error"] →
      applyLogLevel s w = Outcome.returned () { w with globalLevel := Level.info }) ∧
    applyLogLevel "fatal" w = Outcome.returned () { w with globalLevel := Level.info } ∧
    applyLogLevel "" w = Outcome.returned () { w with globalLevel := Level.info } ∧
    applyLogLevel "DEBUG" w = Outcome.returned () { w with globalLevel := Level.info } := by
  refine ⟨rfl, rfl, rfl, rfl, rfl, rfl, rfl, ?_, rfl, rfl, rfl⟩
  intro s hs
  simp only [List.mem_cons, List.mem_singleton, List.not_mem_nil, or_false, not_or] at hs
  obtain ⟨a1, a2, a3, a4, a5, a6, a7⟩ := hs
  unfold applyLogLevel
  split <;> first | rfl | contradiction

theorem applyLogLevel_mapping_witness :
    applyLogLevel "verbose" World.initial =
      Outcome.returned () { World.initial with globalLevel := Level.info } :=
  (applyLogLevel_mapping World.initial).2.2.2.2.2.2.2.1 "verbose" (by decide)

end S3Tester
